import Mathlib

/-!
Shallow embedding of `bevy_entity_pool` (files `src/lib.rs` and
`src/entity_pool.rs`) and verification of the spec's claims about it.

The repository holds two pool designs:

* a generic stack-based pool (`src/entity_pool.rs`, `Pool<T>` /
  `PoolHandle<T>` / `PoolExhausted`, lines 138-233): the free items live in a
  `RefCell<Vec<T>>`; `acquire` pops the last element (`Vec::pop`) and returns
  `Err(PoolExhausted)` when empty; dropping a `PoolHandle` pushes the item
  back (`Vec::push`);

* an entity pool over a bevy `World` (`src/lib.rs`, `EntityPool` /
  `EntityHandle`): `entities` is a fixed slice of reserved entity ids,
  `in_use` a boolean slice, `free_cursor` an index, `handles` a vector of
  registered handle references.

Machine integers (`usize`, entity ids) are modelled as `Nat`; `Vec`/slices as
`List`; a Rust panic as `Option.none`.  A bevy `World` is modelled only at
the boundary the pool uses: an entity-id counter for `reserve_entities` and a
per-entity component list for the data a caller may attach.
-/

set_option autoImplicit false

namespace BevyEntityPool

universe u

/-! ## Generic stack-based pool (`src/entity_pool.rs`, lines 138-233) -/

/-- Error returned by `Pool::acquire` when the free stack is empty
(`src/entity_pool.rs` line 146: `pub struct PoolExhausted;`). -/
structure PoolExhausted where

/-- The generic pool.  Its impl blocks (`src/entity_pool.rs` lines 152-187)
give it a single field `stack: RefCell<Vec<T>>` holding the free items; the
top of the stack is the end of the vector. -/
structure Pool (T : Type u) where
  stack : List T

/-- A checked-out item (`src/entity_pool.rs` lines 139-143).  In the source
the handle stores `item: Option<T>` that is initialized with `Some` and never
replaced until the destructor takes it, plus a reference to the pool's stack;
here the item is stored directly and the stack is passed explicitly. -/
structure PoolHandle (T : Type u) where
  item : T

/-- `Pool::acquire` (`src/entity_pool.rs` lines 177-186): pop the last
element of the free stack; if the stack is empty return
`Err(PoolExhausted)`. -/
def Pool.acquire {T : Type u} (p : Pool T) : Except PoolExhausted (PoolHandle T × Pool T) :=
  match p.stack.getLast? with
  | none => Except.error PoolExhausted.mk
  | some x => Except.ok (PoolHandle.mk x, Pool.mk p.stack.dropLast)

/-- `impl Drop for PoolHandle` (`src/entity_pool.rs` lines 195-203): take the
item out of the handle and push it onto the pool's free stack. -/
def PoolHandle.drop {T : Type u} (h : PoolHandle T) (p : Pool T) : Pool T :=
  Pool.mk (p.stack ++ [h.item])

/-! ## Entity pool over a `World` (`src/lib.rs`) -/

/-- Entity id (bevy `Entity`), modelled by its numeric id. -/
abbrev Entity := Nat

/-- The slice of the bevy `World` the pool interacts with: the entity-id
allocator behind `world.entities().reserve_entities(..)` (a counter handing
out consecutive fresh ids) and, per entity id, the list of component values a
caller may have attached (opaque to the pool; modelled as `List Nat`). -/
structure World where
  next_entity : Nat
  components : Nat → List Nat

/-- `world.entities().reserve_entities(n)`: hand out `n` consecutive fresh
entity ids and advance the allocator. -/
def World.reserve_entities (w : World) (n : Nat) : List Entity × World :=
  ((List.range n).map (fun i => w.next_entity + i),
   World.mk (w.next_entity + n) w.components)

/-- `EntityPool` (`src/lib.rs` lines 35-40).  `handles` in the source is
`Vec<&RefCell<EntityHandle>>`, the handles registered with the pool; it is
modelled as the list of positions (in issue order) of the registered handles
among all handles the pool has issued.  No code path in the source ever
pushes into `handles`: `new` and `clone` build it with `Vec::new()` and
`get_handle` returns the freshly built handle without registering it. -/
structure EntityPool where
  entities : List Entity
  in_use : List Bool
  free_cursor : Nat
  handles : List Nat

/-- `EntityHandle` (`src/lib.rs` lines 138-142): the entity it points to and
the `dropped` flag (`Cell<bool>`).  The source field `pool: &RefCell<EntityPool>`
is a back reference to the pool the handle came from; the pool is passed
explicitly to the operations instead. -/
structure EntityHandle where
  entity : Entity
  dropped : Bool

/-- `EntityPool::new(capacity, world)` (`src/lib.rs` lines 44-53).  The
source reserves `capacity` entities twice: first into a `let entities = ...`
binding that is never used again, then a second time in the struct literal
(`entities: Arc::new(world.entities().reserve_entities(capacity).collect())`);
the recorded slots are the second batch.  `in_use` starts all `false`
(`[false; capacity]`), `free_cursor` at `0`, `handles` empty. -/
def EntityPool.new (capacity : Nat) (w : World) : EntityPool × World :=
  let firstBatch := w.reserve_entities capacity
  let secondBatch := firstBatch.2.reserve_entities capacity
  (EntityPool.mk secondBatch.1 (List.replicate capacity false) 0 [],
   secondBatch.2)

/-- `EntityPool::get_handle` (`src/lib.rs` lines 69-90), with `Option.none`
modelling a panic (out-of-bounds index or the explicit
`panic!("pool exhaustion - all entities in use")`).

Control flow of the source, reproduced exactly:
* read `self.in_use[self.free_cursor]` (panics when out of bounds);
* if it is `true`: `let mut iter = self.in_use.iter().enumerate();` then
  `if iter.any(|(_, &in_use)| !in_use)` — `any` consumes the iterator up to
  and including the first free index `j` and yields `true`, or consumes it
  all and yields `false`, in which case the whole `if` body (including the
  panic) is skipped; inside the body, `iter.next()` yields the element at
  index `j + 1` when it exists (so `free_cursor` is set to `j + 1`, not `j`)
  and `None` otherwise, which panics.  The trailing `*in_use = false;`
  assigns through the closure's by-value copy of a bool (it names no slot of
  `self.in_use` and is ill-typed in the source); it can mark nothing in use
  and is modelled as having no effect;
* build the handle from `self.entities[self.free_cursor]` (panics when out
  of bounds) with `dropped: false`, then advance
  `self.free_cursor = (self.free_cursor + 1) % self.entities.len()`.

Note the source never writes `true` into `in_use` anywhere. -/
def EntityPool.get_handle (p : EntityPool) : Option (EntityHandle × EntityPool) :=
  match p.in_use.get? p.free_cursor with
  | none => none
  | some busy =>
    let scanned : Option EntityPool :=
      if busy then
        match p.in_use.findIdx? (fun b => !b) with
        | some j =>
          if j + 1 < p.in_use.length then
            some (EntityPool.mk p.entities p.in_use (j + 1) p.handles)
          else
            none
        | none => some p
      else
        some p
    scanned.bind (fun q =>
      match q.entities.get? q.free_cursor with
      | none => none
      | some e =>
        some (EntityHandle.mk e false,
              EntityPool.mk q.entities q.in_use
                ((q.free_cursor + 1) % q.entities.length) q.handles))

/-- `EntityHandle::drop(self, world)` (`src/lib.rs` lines 151-163), the
explicit release.  Guarded by `if !self.dropped`; inside the guard the
component clear is commented out in the source
(`// TODO: 0.14` / `// entity_mut.clear();`), so the world's components are
not touched, and the line `self.pool.get_mut().0.push(self.entity)` names a
tuple field `0` that the `EntityPool` struct (named fields only) does not
have — it updates neither `in_use` nor `free_cursor` nor any free list, so
the pool is returned unchanged.  The only effect is `self.dropped = true`. -/
def EntityHandle.drop (h : EntityHandle) (p : EntityPool) (w : World) :
    EntityHandle × EntityPool × World :=
  if h.dropped then (h, p, w)
  else (EntityHandle.mk h.entity true, p, w)

/-- `EntityHandle::entity_mut(&self, world)` (`src/lib.rs` lines 145-147):
`world.entity_mut(self.entity)` — returns the world accessor for the
handle's entity unconditionally.  The source performs no check of the
`dropped` flag and defines no `UseAfterRelease` error anywhere; the accessor
is modelled as the entity id paired with its attached component data. -/
def EntityHandle.entity_mut (h : EntityHandle) (w : World) : Entity × List Nat :=
  (h.entity, w.components h.entity)

/-- `EntityPool::free_all(&mut self, world)` (`src/lib.rs` lines 95-107),
acting on the pool, the world, and the list of all handles the pool has
issued (in issue order).  First loop: for every index with `in_use` set, the
store clear is commented out in the source (`// TODO: 0.14 make this clear`
/ `// world.entity_mut(self.entities[idx]).clear();`), so the world is
untouched, and `*in_use = false` resets the flag.  Second loop: every handle
registered in `self.handles` gets `dropped.set(true)` — but `handles` is
empty in every reachable state, since nothing ever pushes into it. -/
def EntityPool.free_all (p : EntityPool) (w : World) (issued : List EntityHandle) :
    EntityPool × World × List EntityHandle :=
  (EntityPool.mk p.entities (p.in_use.map (fun b => if b then false else b))
     p.free_cursor p.handles,
   w,
   p.handles.foldl (fun acc i =>
     match acc.get? i with
     | some h => acc.set i (EntityHandle.mk h.entity true)
     | none => acc) issued)

/-! ### Traces of pool operations

To state claims quantified over "every sequence of allocate and release
operations" the pool, the world and every handle it has issued are bundled
into one state, driven by an operation list. -/

/-- One client operation on an entity pool. -/
inductive Op where
  | alloc : Op
  | release : Nat → Op
  | freeAll : Op

/-- Pool, world, and all handles issued so far (in issue order). -/
structure SysState where
  pool : EntityPool
  world : World
  issued : List EntityHandle

/-- Run one operation; `none` models a panic (or releasing a handle that was
never issued). -/
def SysState.step (s : SysState) : Op → Option SysState
  | Op.alloc =>
    match s.pool.get_handle with
    | none => none
    | some hp => some (SysState.mk hp.2 s.world (s.issued ++ [hp.1]))
  | Op.release i =>
    match s.issued.get? i with
    | none => none
    | some h =>
      let r := h.drop s.pool s.world
      some (SysState.mk r.2.1 r.2.2 (s.issued.set i r.1))
  | Op.freeAll =>
    let r := s.pool.free_all s.world s.issued
    some (SysState.mk r.1 r.2.1 r.2.2)

/-- Run a list of operations from a freshly constructed pool of the given
capacity over the given initial world. -/
def run (capacity : Nat) (w : World) (ops : List Op) : Option SysState :=
  let pw := EntityPool.new capacity w
  ops.foldlM SysState.step (SysState.mk pw.1 pw.2 [])

/-! ## Claims -/

/-- Claim C1: FALSIFIED by the code at a concrete run.  Capacity 3: the pool
records entities `[3, 4, 5]` (slots 0, 1, 2); three allocations hand out
slots 0, 1, 2 in order; the handle for slot 1 (entity 4) is then released.
The claim says the next allocation returns exactly the released slot index 1;
the code instead hands out slot index 0 (entity 3) again — `get_handle` is a
round-robin cursor, allocation never writes `true` into `in_use` (which stays
all `false`, so slot 0 is "not in `in_use`" even while its first handle is
still active) and release never marks a slot free. -/
theorem claim_c1_lowest_free_slot_violated :
    (run 3 (World.mk 0 (fun _ => []))
        [Op.alloc, Op.alloc, Op.alloc, Op.release 1, Op.alloc]).map
        (fun s => (s.issued.map (fun h => (h.entity, h.dropped)),
                   s.pool.entities, s.pool.in_use))
      = some ([(3, false), (4, true), (5, false), (3, false)],
              [3, 4, 5], [false, false, false]) := by
  decide

/-- Claim C2: FALSIFIED by the code at a concrete run.  Capacity 2 (entities
`[2, 3]`): three consecutive allocations with no release yield handles bound
to entity 2 (slot 0), entity 3 (slot 1) and entity 2 (slot 0) again — the
first and third handles are both active (`dropped = false`) with no
intervening release, yet share slot index 0, because the cursor wraps with
`% self.entities.len()` and `in_use` is never consulted nor set. -/
theorem claim_c2_double_allocation :
    (run 2 (World.mk 0 (fun _ => [])) [Op.alloc, Op.alloc, Op.alloc]).map
        (fun s => s.issued.map (fun h => (h.entity, h.dropped)))
      = some [(2, false), (3, false), (2, false)] := by
  decide

/-- Claim C3: CONFIRMED for the generic pool (`Pool::acquire`,
`src/entity_pool.rs`).  Exhaustion is the typed value `Err(PoolExhausted)`
(first conjunct: the empty free stack), never a crash; with capacity 3 and
free stack `[0, 1, 2]`, four consecutive acquisitions yield item 2, item 1,
item 0, then `PoolExhausted`; releasing the item 0 handle (its destructor
pushes 0 back) lets the retried acquisition succeed, reusing exactly the
freed item. -/
theorem claim_c3_exhaustion_and_recovery :
    Pool.acquire (Pool.mk ([] : List Nat)) = Except.error PoolExhausted.mk
    ∧ Pool.acquire (Pool.mk [0, 1, 2]) = Except.ok (PoolHandle.mk 2, Pool.mk [0, 1])
    ∧ Pool.acquire (Pool.mk [0, 1]) = Except.ok (PoolHandle.mk 1, Pool.mk [0])
    ∧ Pool.acquire (Pool.mk [0]) = Except.ok (PoolHandle.mk 0, Pool.mk [])
    ∧ Pool.acquire (PoolHandle.drop (PoolHandle.mk 0) (Pool.mk ([] : List Nat)))
        = Except.ok (PoolHandle.mk 0, Pool.mk []) := by
  refine ⟨rfl, rfl, rfl, rfl, rfl⟩

/-- Claim C4: FALSIFIED by the code.  `EntityHandle::entity_mut` performs no
check of the `dropped` flag (and the source defines no `UseAfterRelease`
error at all): a handle in the released state (`dropped = true`) is granted
the world accessor for its entity, component data included (first conjunct),
and in general the access result is identical whether the handle is released
or active (second conjunct) — the failure the claim requires never occurs. -/
theorem claim_c4_use_after_release_not_rejected :
    EntityHandle.entity_mut (EntityHandle.mk 1 true)
        (World.mk 2 (fun e => if e = 1 then [42] else [])) = (1, [42])
    ∧ ∀ (h : EntityHandle) (w : World),
        EntityHandle.entity_mut (EntityHandle.mk h.entity true) w
          = EntityHandle.entity_mut (EntityHandle.mk h.entity false) w := by
  exact ⟨rfl, fun h w => rfl⟩

/-- Claim C5: FALSIFIED by the code on the clear count.  Releasing an active
handle (first conjunct) flips only `dropped`: the pool is unchanged and the
world is returned untouched — the marker component `[42]` attached to the
handle's entity survives, so ZERO clear operations are issued per occupancy
cycle where the claim requires exactly one (the clear in
`EntityHandle::drop` is commented out behind `// TODO: 0.14`).  The
idempotence half of the claim does hold: releasing the already-released
handle is a complete no-op (second conjunct). -/
theorem claim_c5_release_clears_nothing :
    EntityHandle.drop (EntityHandle.mk 1 false) (EntityPool.mk [1] [false] 0 [])
        (World.mk 2 (fun e => if e = 1 then [42] else []))
      = (EntityHandle.mk 1 true, EntityPool.mk [1] [false] 0 [],
         World.mk 2 (fun e => if e = 1 then [42] else []))
    ∧ EntityHandle.drop (EntityHandle.mk 1 true) (EntityPool.mk [1] [false] 0 [])
        (World.mk 2 (fun e => if e = 1 then [42] else []))
      = (EntityHandle.mk 1 true, EntityPool.mk [1] [false] 0 [],
         World.mk 2 (fun e => if e = 1 then [42] else []))
    ∧ (World.mk 2 (fun e => if e = 1 then [42] else [])).components 1 = [42] := by
  exact ⟨rfl, rfl, rfl⟩

/-- Claim C6: FALSIFIED by the code on the reservation count.
`EntityPool::new(3, world)` over a fresh world consumes SIX entity ids from
the store, not three in a single batch: the first
`let entities = ...reserve_entities(capacity)` batch `[0, 1, 2]` is bound and
then discarded, and the struct literal reserves a second batch `[3, 4, 5]`
which becomes the recorded slots.  The `in_use`-starts-empty half of the
claim does hold (third conjunct). -/
theorem claim_c6_reserves_capacity_twice :
    (EntityPool.new 3 (World.mk 0 (fun _ => []))).2.next_entity = 6
    ∧ (EntityPool.new 3 (World.mk 0 (fun _ => []))).1.entities = [3, 4, 5]
    ∧ (EntityPool.new 3 (World.mk 0 (fun _ => []))).1.in_use
        = [false, false, false] := by
  refine ⟨rfl, by decide, by decide⟩

/-- Claim C7: FALSIFIED by the code at a concrete run.  Capacity 1 (pool
entity 1 carrying marker component `[42]`): allocate one handle, then
`free_all`.  Afterwards the outstanding handle still reports
`dropped = false` — `free_all` only marks handles registered in
`pool.handles`, and no code path ever registers one — and the marker data is
still attached to entity 1, because the store clear in `free_all` is
commented out (`// TODO: 0.14 make this clear`).  The claim requires the
handle to be `Released` and the data cleared. -/
theorem claim_c7_free_all_incomplete :
    (run 1 (World.mk 0 (fun e => if e = 1 then [42] else []))
        [Op.alloc, Op.freeAll]).map
        (fun s => (s.issued.map (fun h => (h.entity, h.dropped)),
                   s.world.components 1))
      = some ([(1, false)], [42]) := by
  decide

/-- Claim C8: FALSIFIED by the code at a concrete run.  Capacity 1: two
consecutive `get_handle` calls both succeed (no panic, despite the doc
comment promising a panic on exhaustion), leaving TWO simultaneously active
handles (`dropped = false`) against a pool of capacity 1. -/
theorem claim_c8_capacity_invariant_violated :
    (run 1 (World.mk 0 (fun _ => [])) [Op.alloc, Op.alloc]).map
        (fun s => ((s.issued.filter (fun h => !h.dropped)).length,
                   s.pool.entities.length))
      = some (2, 1) := by
  decide

/-- Claim C9: CONFIRMED.  `Pool::acquire` returns `Err(PoolExhausted)` if
and only if the free stack is empty (first conjunct); otherwise it pops the
last element of the stack (second conjunct, every nonempty stack being of
the form `xs ++ [x]`); and reuse is LIFO: the most recently returned item —
pushed onto the end of the stack by `PoolHandle`'s destructor — is exactly
the next item handed out (third conjunct). -/
theorem claim_c9_acquire_pops_last :
    ∀ {T : Type} (p : Pool T) (x : T) (xs : List T),
      (Pool.acquire p = Except.error PoolExhausted.mk ↔ p.stack = [])
      ∧ Pool.acquire (Pool.mk (xs ++ [x])) = Except.ok (PoolHandle.mk x, Pool.mk xs)
      ∧ Pool.acquire (PoolHandle.drop (PoolHandle.mk x) p)
          = Except.ok (PoolHandle.mk x, p) := by
  intro T p x xs
  refine ⟨?_, ?_, ?_⟩
  · rcases List.eq_nil_or_concat p.stack with hnil | ⟨ys, y, hys⟩
    · simp [Pool.acquire, hnil]
    · simp [Pool.acquire, hys, List.getLast?_concat]
  · simp [Pool.acquire, List.getLast?_concat, List.dropLast_concat]
  · simp [Pool.acquire, PoolHandle.drop, List.getLast?_concat, List.dropLast_concat]

/-- Claim C10: CONFIRMED.  Whenever `acquire` succeeds, handing back
`(h, p')`, dropping the handle restores the pool to exactly the stack it had
before the acquisition — the item is returned, nothing is lost or
duplicated, and in particular the stack length round-trips. -/
theorem claim_c10_acquire_drop_roundtrip {T : Type} (p p' : Pool T)
    (h : PoolHandle T) (hacq : Pool.acquire p = Except.ok (h, p')) :
    PoolHandle.drop h p' = p
    ∧ (PoolHandle.drop h p').stack.length = p.stack.length := by
  obtain ⟨stk⟩ := p
  rcases List.eq_nil_or_concat stk with hnil | ⟨ys, y, hys⟩
  · subst hnil
    simp [Pool.acquire] at hacq
  · rw [List.concat_eq_append] at hys
    subst hys
    rw [Pool.acquire] at hacq
    simp only [List.getLast?_concat, Except.ok.injEq, Prod.mk.injEq] at hacq
    obtain ⟨hh, hp⟩ := hacq
    subst hh
    subst hp
    constructor
    · simp [PoolHandle.drop, List.dropLast_concat]
    · simp [PoolHandle.drop, List.dropLast_concat]

/-- Witness for claim C10 at the concrete pool `[5]`: acquiring pops the
item 5, and dropping the handle restores the stack `[5]`. -/
theorem claim_c10_witness :
    Pool.acquire (Pool.mk [5]) = Except.ok (PoolHandle.mk 5, Pool.mk ([] : List Nat))
    ∧ PoolHandle.drop (PoolHandle.mk 5) (Pool.mk ([] : List Nat)) = Pool.mk [5] :=
  ⟨rfl, (claim_c10_acquire_drop_roundtrip (Pool.mk [5]) (Pool.mk [])
      (PoolHandle.mk 5) rfl).1⟩

end BevyEntityPool
